import Mathlib

/-!
Shallow embedding of `taipy_timesheet.py` (a biweekly timesheet and payroll
estimation tool) for verification of its specification.

Modelling conventions:
* Calendar dates are represented by their civil day number (days since
  1970-01-01), computed by `daysFromCivil` (the standard days-from-civil
  algorithm); comparing day numbers agrees with comparing dates, and the
  ISO `YYYY-MM-DD` strings stored in the database compare lexicographically
  exactly as their day numbers compare.
* Money and hour amounts are rationals (`ℚ`), the exact-arithmetic reading of
  the Python floats.
* The SQLite table of shifts is a `Store`: a list of rows plus the
  autoincrement counter and a strictly increasing insertion clock standing
  for `created_at DEFAULT CURRENT_TIMESTAMP`.
-/

/-- Civil day number (days since 1970-01-01) of year/month/day, via the
standard days-from-civil algorithm; all dates in this development are
well after 1970 so integer division rounds like in the source. -/
def daysFromCivil (y m d : ℤ) : ℤ :=
  let y' := if m ≤ 2 then y - 1 else y
  let era := (if 0 ≤ y' then y' else y' - 399) / 400
  let yoe := y' - era * 400
  let doy := (153 * (if 2 < m then m - 3 else m + 9) + 2) / 5 + d - 1
  let doe := yoe * 365 + yoe / 4 - yoe / 100 + doy
  era * 146097 + doe - 719468

/-- A pay period: inclusive start and end day numbers plus a label
(the dict `{"start": ..., "end": ..., "label": ...}` of the source;
`stop` stands for the key `"end"`, a Lean keyword). -/
structure PayPeriod where
  start : ℤ
  stop : ℤ
  label : String
deriving DecidableEq

/-- The ten predefined 14-day pay periods (`PAY_PERIODS` in the source). -/
def PAY_PERIODS : List PayPeriod :=
  [⟨daysFromCivil 2025 8 10, daysFromCivil 2025 8 23, "Aug 10-23, 2025"⟩,
   ⟨daysFromCivil 2025 8 24, daysFromCivil 2025 9 6, "Aug 24 - Sep 6, 2025"⟩,
   ⟨daysFromCivil 2025 9 7, daysFromCivil 2025 9 20, "Sep 7-20, 2025"⟩,
   ⟨daysFromCivil 2025 9 21, daysFromCivil 2025 10 4, "Sep 21 - Oct 4, 2025"⟩,
   ⟨daysFromCivil 2025 10 5, daysFromCivil 2025 10 18, "Oct 5-18, 2025"⟩,
   ⟨daysFromCivil 2025 10 19, daysFromCivil 2025 11 1, "Oct 19 - Nov 1, 2025"⟩,
   ⟨daysFromCivil 2025 11 2, daysFromCivil 2025 11 15, "Nov 2-15, 2025"⟩,
   ⟨daysFromCivil 2025 11 16, daysFromCivil 2025 11 29, "Nov 16-29, 2025"⟩,
   ⟨daysFromCivil 2025 11 30, daysFromCivil 2025 12 13, "Nov 30 - Dec 13, 2025"⟩,
   ⟨daysFromCivil 2025 12 14, daysFromCivil 2025 12 27, "Dec 14-27, 2025"⟩]

/-- The `for` loop of `get_pay_period_for_date`: first period whose
inclusive range contains the date. -/
def find_period (d : ℤ) : List PayPeriod → Option PayPeriod
  | [] => none
  | p :: rest => if p.start ≤ d ∧ d ≤ p.stop then some p else find_period d rest

/-- `get_pay_period_for_date`: the first predefined period containing the
date, else a synthesized 14-day period starting at the date. -/
def get_pay_period_for_date (target_date : ℤ) : PayPeriod :=
  match find_period target_date PAY_PERIODS with
  | some p => p
  | none => ⟨target_date, target_date + 13, "Period starting " ++ toString target_date⟩

/-- `get_current_and_previous_periods`, with `date.today()` made an explicit
argument.  The loop keeps overwriting `previous_period` with each predefined
period whose end precedes the current start, i.e. it keeps the last such
period of the list; if none, a synthesized 14-day period ending the day
before the current start is used. -/
def get_current_and_previous_periods (today : ℤ) : PayPeriod × PayPeriod :=
  let current_period := get_pay_period_for_date today
  let previous_period :=
    PAY_PERIODS.foldl
      (fun acc period => if period.stop < current_period.start then some period else acc) none
  match previous_period with
  | some p => (current_period, p)
  | none =>
    let prev_end := current_period.start - 1
    let prev_start := prev_end - 13
    (current_period, ⟨prev_start, prev_end, "Previous Period"⟩)

/-- `PER_DIEM_RATES` with the `.get(choice, 0)` default for unknown keys. -/
def PER_DIEM_RATES (choice : String) : ℚ :=
  if choice = "None" then 0
  else if choice = "Breakfast Only" then 11 + 4
  else if choice = "Breakfast + Lunch" then 12 + 8
  else if choice = "Breakfast + Lunch + Dinner" then 41 + 13
  else if choice = "Lunch + Dinner" then 30 + 9
  else if choice = "Dinner Only" then 18 + 5
  else 0

/-- `calc_weekly_pay` (nested in `calc_pay_period`): returns
`(taxable_gross, per_diem_total, ot_pay)` for one week. -/
def calc_weekly_pay (hours : ℚ) (per_diem_choices : List String)
    (site_bonus_days : ℚ) (base_weekly : ℚ) (site_bonus_day : ℚ) : ℚ × ℚ × ℚ :=
  let base_pay := base_weekly
  let site_bonus := site_bonus_day * site_bonus_days
  let ot_pay : ℚ :=
    if 40 < hours then
      let regular_rate := (base_pay + site_bonus) / hours
      let ot_hours := hours - 40
      ot_hours * (0.5 * regular_rate)
    else 0
  let taxable_gross := base_pay + site_bonus + ot_pay
  let per_diem_total := (per_diem_choices.map PER_DIEM_RATES).sum
  (taxable_gross, per_diem_total, ot_pay)

/-- `calc_pay_period`: computes each week separately, sums the weekly
results, and applies the flat tax to the biweekly taxable gross; returns
`(total_taxable_gross, total_per_diem, after_tax)`. -/
def calc_pay_period (week1_hours week2_hours : ℚ)
    (week1_per_diem week2_per_diem : List String)
    (week1_site_bonus_days week2_site_bonus_days : ℚ)
    (base_weekly site_bonus_day tax_rate : ℚ) : ℚ × ℚ × ℚ :=
  let w1 := calc_weekly_pay week1_hours week1_per_diem week1_site_bonus_days
    base_weekly site_bonus_day
  let w2 := calc_weekly_pay week2_hours week2_per_diem week2_site_bonus_days
    base_weekly site_bonus_day
  let total_taxable_gross := w1.1 + w2.1
  let total_per_diem := w1.2.1 + w2.2.1
  let taxes := total_taxable_gross * tax_rate
  let after_tax := total_taxable_gross - taxes + total_per_diem
  (total_taxable_gross, total_per_diem, after_tax)

/-- Value of a decimal digit character, `none` for a non-digit. -/
def digitVal (c : Char) : Option ℕ :=
  if '0' ≤ c ∧ c ≤ '9' then some (c.toNat - 48) else none

/-- Split a character list on a separator (the field structure `strptime`
imposes between directives). -/
def splitOnChar (sep : Char) : List Char → List (List Char)
  | [] => [[]]
  | c :: rest =>
    match splitOnChar sep rest with
    | [] => [[]]
    | f :: fs => if c = sep then [] :: f :: fs else (c :: f) :: fs

/-- A 1-or-2-digit numeric field, as a `strptime` zero-padded-decimal
directive accepts. -/
def timeField : List Char → Option ℕ
  | [a] => digitVal a
  | [a, b] =>
    match digitVal a, digitVal b with
    | some x, some y => some (10 * x + y)
    | _, _ => none
  | _ => none

/-- `datetime.strptime(s, "%H:%M")`, as the pair `(hour, minute)`; `none`
stands for the `ValueError` raised on a malformed time string (wrong shape,
non-digits, hour above 23 or minute above 59). -/
def parseHM (s : String) : Option (ℕ × ℕ) :=
  match splitOnChar ':' s.toList with
  | [hs, ms] =>
    match timeField hs, timeField ms with
    | some h, some m => if h ≤ 23 ∧ m ≤ 59 then some (h, m) else none
    | _, _ => none
  | _ => none

/-- `calculate_hours_from_timesheet`: hours between two clock times on the
same nominal day, with `end_dt <= start_dt` pushing the end to the following
day; the `except` branch turns a failed parse into `0`. -/
def calculate_hours_from_timesheet (start_time end_time : String) : ℚ :=
  match parseHM start_time, parseHM end_time with
  | some (h1, m1), some (h2, m2) =>
    let start_minutes : ℤ := h1 * 60 + m1
    let end_minutes : ℤ := h2 * 60 + m2
    let end_minutes' := if end_minutes ≤ start_minutes then end_minutes + 1440 else end_minutes
    (((end_minutes' - start_minutes) * 60 : ℤ) : ℚ) / 3600
  | _, _ => 0

/-- Python `int()` truncation toward zero of a rational (`Int.tdiv` is
truncating division). -/
def pyint (x : ℚ) : ℤ := Int.tdiv x.num (x.den : ℤ)

/-- Occurrence count of `x`, the count a `collections.Counter` assigns. -/
def countOcc (l : List String) (x : String) : ℕ :=
  (l.filter (fun c => decide (c = x))).length

/-- `Counter(l).most_common(1)[0][0]` for nonempty `l`: the
earliest-inserted element of maximal count (`Counter` preserves
first-insertion order and `most_common` sorts stably by descending count). -/
def most_common (l : List String) : Option String :=
  match l with
  | [] => none
  | x :: _ => some (l.foldl (fun best c => if countOcc l best < countOcc l c then c else best) x)

/-- Lines 425-429 of the source: the most common per-diem choice of the
sample, or the literal choice `None` when the sample has no choices. -/
def pick_per_diem (choices : List String) : String :=
  match most_common choices with
  | some c => c
  | none => "None"

/-- The `current_data` dict fed to `calculate_monthly_projections`
(as assembled by `update_pay_calculations`). -/
structure ProjectionSample where
  hours : ℚ
  days : ℕ
  site_bonus_days : ℕ
  per_diem_choices : List String

/-- The `scenarios` dict of `calculate_monthly_projections`, in insertion
order. -/
def scenarios : List (String × ℕ) :=
  [("Light Month (5 days)", 5), ("Average Month (20 days)", 20),
   ("Heavy Month (28 days)", 28)]

/-- `calculate_monthly_projections`: per-scenario projected monthly take-home
rows, or a single `No data available` row when the sample has zero hours or
zero days.  Note the tax applied is `taxable_gross * (tax_rate / 100)`. -/
def calculate_monthly_projections (current_data : ProjectionSample)
    (base_weekly site_bonus_day tax_rate : ℚ) : List (String × ℚ) :=
  if current_data.hours = 0 ∨ current_data.days = 0 then
    [("No data available", 0)]
  else
    let avg_hours_per_day := current_data.hours / (current_data.days : ℚ)
    let site_bonus_rate := (current_data.site_bonus_days : ℚ) / (current_data.days : ℚ)
    let most_common_per_diem := pick_per_diem current_data.per_diem_choices
    scenarios.map (fun sc =>
      let days_per_month : ℕ := sc.2
      let total_hours := avg_hours_per_day * (days_per_month : ℚ)
      let total_site_bonus_days := pyint (site_bonus_rate * (days_per_month : ℚ))
      let per_diem_choices := List.replicate days_per_month most_common_per_diem
      let monthly_base := base_weekly * 4
      let site_bonus_total := site_bonus_day * (total_site_bonus_days : ℚ)
      let monthly_ot_threshold : ℚ := 40 * 4
      let ot_pay : ℚ :=
        if monthly_ot_threshold < total_hours then
          let regular_rate := (monthly_base + site_bonus_total) / total_hours
          let ot_hours := total_hours - monthly_ot_threshold
          ot_hours * (0.5 * regular_rate)
        else 0
      let taxable_gross := monthly_base + site_bonus_total + ot_pay
      let per_diem_total := (per_diem_choices.map PER_DIEM_RATES).sum
      let taxes := taxable_gross * (tax_rate / 100)
      let monthly_take_home := taxable_gross - taxes + per_diem_total
      (sc.1, monthly_take_home))

/-- The taxable gross computed inside `calculate_monthly_projections` for one
days-per-month scenario (same lets as the source loop body). -/
def scenarioTaxableGross (current_data : ProjectionSample)
    (base_weekly site_bonus_day : ℚ) (days_per_month : ℕ) : ℚ :=
  let avg_hours_per_day := current_data.hours / (current_data.days : ℚ)
  let site_bonus_rate := (current_data.site_bonus_days : ℚ) / (current_data.days : ℚ)
  let total_hours := avg_hours_per_day * (days_per_month : ℚ)
  let total_site_bonus_days := pyint (site_bonus_rate * (days_per_month : ℚ))
  let monthly_base := base_weekly * 4
  let site_bonus_total := site_bonus_day * (total_site_bonus_days : ℚ)
  let monthly_ot_threshold : ℚ := 40 * 4
  let ot_pay : ℚ :=
    if monthly_ot_threshold < total_hours then
      let regular_rate := (monthly_base + site_bonus_total) / total_hours
      let ot_hours := total_hours - monthly_ot_threshold
      ot_hours * (0.5 * regular_rate)
    else 0
  monthly_base + site_bonus_total + ot_pay

/-- The per-diem total computed inside `calculate_monthly_projections` for
one days-per-month scenario. -/
def scenarioPerDiem (current_data : ProjectionSample) (days_per_month : ℕ) : ℚ :=
  ((List.replicate days_per_month (pick_per_diem current_data.per_diem_choices)).map
    PER_DIEM_RATES).sum

/-- The projection call of `update_pay_calculations`: `state.tax_rate` is a
percentage, and the caller passes `tax_rate_decimal = state.tax_rate / 100`
down to `calculate_monthly_projections` (lines 570 and 614-616). -/
def update_monthly_projections (current_for_projection : ProjectionSample)
    (base_weekly site_bonus_day tax_rate : ℚ) : List (String × ℚ) :=
  let tax_rate_decimal := tax_rate / 100
  calculate_monthly_projections current_for_projection base_weekly site_bonus_day
    tax_rate_decimal

/-- A row of the `shifts` table. -/
structure Shift where
  id : ℕ
  date : ℤ
  start_time : String
  end_time : String
  per_diem : String
  site_bonus : Bool
  created_at : ℕ
deriving DecidableEq

/-- The `shifts` table: its rows, the `AUTOINCREMENT` counter for `id`, and
a strictly increasing insertion clock standing for the `CURRENT_TIMESTAMP`
default of `created_at`. -/
structure Store where
  rows : List Shift
  next_id : ℕ
  clock : ℕ
deriving DecidableEq

/-- A freshly created `shifts` table (`AUTOINCREMENT` ids start at 1). -/
def emptyStore : Store := ⟨[], 1, 0⟩

/-- `save_shift_to_db`: `INSERT INTO shifts (date, start_time, end_time,
per_diem, site_bonus) VALUES (?, ?, ?, ?, ?)`, with `id` and `created_at`
assigned by the table defaults.  The model always succeeds (returns the new
store). -/
def save_shift_to_db (st : Store) (shift_date : ℤ)
    (start_time end_time per_diem : String) (site_bonus : Bool) : Store :=
  { rows := st.rows ++
      [⟨st.next_id, shift_date, start_time, end_time, per_diem, site_bonus, st.clock⟩],
    next_id := st.next_id + 1,
    clock := st.clock + 1 }

/-- The `ORDER BY date DESC, created_at DESC` ordering of
`get_saved_shifts`. -/
def shiftOrder (a b : Shift) : Prop :=
  b.date < a.date ∨ (a.date = b.date ∧ b.created_at ≤ a.created_at)

instance : DecidableRel shiftOrder := fun a b => by
  unfold shiftOrder; infer_instance

instance : IsTotal Shift shiftOrder :=
  ⟨fun a b => by unfold shiftOrder; omega⟩

instance : IsTrans Shift shiftOrder :=
  ⟨fun a b c hab hbc => by unfold shiftOrder at *; omega⟩

/-- `get_saved_shifts`: all rows, `ORDER BY date DESC, created_at DESC`
(the `created_at` column is always present in this model). -/
def get_saved_shifts (st : Store) : List Shift :=
  st.rows.insertionSort shiftOrder

/-- `delete_shift_from_db`: `DELETE FROM shifts WHERE id = ?`; returns the
new store and whether any row was removed (`affected_rows > 0`). -/
def delete_shift_from_db (st : Store) (shift_id : ℕ) : Store × Bool :=
  let affected_rows := (st.rows.filter (fun r => decide (r.id = shift_id))).length
  ({ st with rows := st.rows.filter (fun r => decide (¬ r.id = shift_id)) },
   decide (0 < affected_rows))

/-- `delete_all_shifts`: `DELETE FROM shifts`; returns the new store and the
number of rows removed. -/
def delete_all_shifts (st : Store) : Store × ℕ :=
  ({ st with rows := [] }, st.rows.length)

/-- The column list created by the `CREATE TABLE` statement of
`check_database_structure`. -/
def full_schema_columns : List String :=
  ["id", "date", "start_time", "end_time", "per_diem", "site_bonus", "created_at"]

/-- `check_database_structure` acting on the column list of the `shifts`
table (`none` when the table does not exist): builds `missing_columns` by
checking only `date` and `created_at`, drops the table when that list is
nonempty, then runs `CREATE TABLE IF NOT EXISTS` with the full schema.
Returns the resulting column list. -/
def check_database_structure (table : Option (List String)) : List String :=
  match table with
  | none => full_schema_columns
  | some column_names =>
    let missing_columns :=
      (if "date" ∉ column_names then ["date"] else []) ++
      (if "created_at" ∉ column_names then ["created_at"] else [])
    if missing_columns = [] then column_names else full_schema_columns

/-- The days visited by the `while curr <= bulk_end_date` loop of
`bulk_add_shifts`, in order. -/
def bulk_days (start_d end_d : ℤ) : List ℤ :=
  (List.range (end_d + 1 - start_d).toNat).map (fun (i : ℕ) => start_d + (i : ℤ))

/-- `bulk_add_shifts` acting on the store: when the end date is strictly
before the start date, a validation error is reported (third component
`true`) and nothing is persisted; otherwise one shift per day from the start
date through the end date inclusive is inserted, and the inserted count is
returned with no error. -/
def bulk_add_shifts (st : Store) (bulk_start_date bulk_end_date : ℤ)
    (start_time end_time per_diem : String) (site_bonus : Bool) : Store × ℕ × Bool :=
  if bulk_end_date < bulk_start_date then (st, 0, true)
  else
    ((bulk_days bulk_start_date bulk_end_date).foldl
      (fun acc curr => save_shift_to_db acc curr start_time end_time per_diem site_bonus) st,
     (bulk_days bulk_start_date bulk_end_date).length, false)

/-- Concrete day-number values of the ten predefined periods. -/
lemma PAY_PERIODS_eval : PAY_PERIODS =
  [⟨20310, 20323, "Aug 10-23, 2025"⟩, ⟨20324, 20337, "Aug 24 - Sep 6, 2025"⟩,
   ⟨20338, 20351, "Sep 7-20, 2025"⟩, ⟨20352, 20365, "Sep 21 - Oct 4, 2025"⟩,
   ⟨20366, 20379, "Oct 5-18, 2025"⟩, ⟨20380, 20393, "Oct 19 - Nov 1, 2025"⟩,
   ⟨20394, 20407, "Nov 2-15, 2025"⟩, ⟨20408, 20421, "Nov 16-29, 2025"⟩,
   ⟨20422, 20435, "Nov 30 - Dec 13, 2025"⟩, ⟨20436, 20449, "Dec 14-27, 2025"⟩] := by rfl

/-- Day number of 2025-08-10, the first predefined period start. -/
lemma day_aug10 : daysFromCivil 2025 8 10 = 20310 := by rfl

/-- Day number of 2025-12-27, the last predefined period end. -/
lemma day_dec27 : daysFromCivil 2025 12 27 = 20449 := by rfl

lemma find_period_nil (d : ℤ) : find_period d [] = none := rfl

lemma find_period_cons (d : ℤ) (p : PayPeriod) (rest : List PayPeriod) :
    find_period d (p :: rest) =
      if p.start ≤ d ∧ d ≤ p.stop then some p else find_period d rest := rfl

/-- A date inside a predefined period resolves to that period. -/
lemma gp_in_range (d : ℤ) (p : PayPeriod) (hp : p ∈ PAY_PERIODS)
    (h1 : p.start ≤ d) (h2 : d ≤ p.stop) : get_pay_period_for_date d = p := by
  rw [PAY_PERIODS_eval] at hp
  unfold get_pay_period_for_date
  rw [PAY_PERIODS_eval]
  simp only [List.mem_cons, List.not_mem_nil, or_false] at hp
  rcases hp with rfl|rfl|rfl|rfl|rfl|rfl|rfl|rfl|rfl|rfl <;>
  · simp only [PayPeriod.start, PayPeriod.stop] at h1 h2
    simp only [find_period_cons, find_period_nil]
    repeat rw [if_neg (by omega)]
    rw [if_pos (by omega)]

/-- A date outside all predefined periods resolves to the synthesized
14-day period starting at the date. -/
lemma gp_out_of_range (d : ℤ) (h : d < 20310 ∨ 20449 < d) :
    get_pay_period_for_date d =
      ⟨d, d + 13, "Period starting " ++ toString d⟩ := by
  unfold get_pay_period_for_date
  rw [PAY_PERIODS_eval]
  simp only [find_period_cons, find_period_nil]
  repeat rw [if_neg (by omega)]

/-- Evaluation of `get_current_and_previous_periods` before the first
predefined period. -/
lemma gcpp_before (today : ℤ) (h : today < 20310) :
    get_current_and_previous_periods today =
      (⟨today, today + 13, "Period starting " ++ toString today⟩,
       ⟨today - 1 - 13, today - 1, "Previous Period"⟩) := by
  unfold get_current_and_previous_periods
  rw [gp_out_of_range today (Or.inl h)]
  rw [PAY_PERIODS_eval]
  simp only [List.foldl]
  repeat rw [if_neg (by omega)]

/-- Evaluation of `get_current_and_previous_periods` after the last
predefined period. -/
lemma gcpp_after (today : ℤ) (h : 20449 < today) :
    get_current_and_previous_periods today =
      (⟨today, today + 13, "Period starting " ++ toString today⟩,
       ⟨20436, 20449, "Dec 14-27, 2025"⟩) := by
  unfold get_current_and_previous_periods
  rw [gp_out_of_range today (Or.inr h)]
  rw [PAY_PERIODS_eval]
  simp only [List.foldl]
  rw [if_pos (by omega)]

lemma gcpp_in0 (today : ℤ) (h1 : 20310 ≤ today) (h2 : today ≤ 20323) :
    get_current_and_previous_periods today =
      (⟨20310, 20323, "Aug 10-23, 2025"⟩, ⟨20296, 20309, "Previous Period"⟩) := by
  unfold get_current_and_previous_periods
  rw [gp_in_range today ⟨20310, 20323, "Aug 10-23, 2025"⟩ (by rw [PAY_PERIODS_eval]; simp)
    (by exact h1) (by exact h2)]
  rfl

lemma gcpp_in1 (today : ℤ) (h1 : 20324 ≤ today) (h2 : today ≤ 20337) :
    get_current_and_previous_periods today =
      (⟨20324, 20337, "Aug 24 - Sep 6, 2025"⟩, ⟨20310, 20323, "Aug 10-23, 2025"⟩) := by
  unfold get_current_and_previous_periods
  rw [gp_in_range today ⟨20324, 20337, "Aug 24 - Sep 6, 2025"⟩ (by rw [PAY_PERIODS_eval]; simp)
    (by exact h1) (by exact h2)]
  rfl

lemma gcpp_in2 (today : ℤ) (h1 : 20338 ≤ today) (h2 : today ≤ 20351) :
    get_current_and_previous_periods today =
      (⟨20338, 20351, "Sep 7-20, 2025"⟩, ⟨20324, 20337, "Aug 24 - Sep 6, 2025"⟩) := by
  unfold get_current_and_previous_periods
  rw [gp_in_range today ⟨20338, 20351, "Sep 7-20, 2025"⟩ (by rw [PAY_PERIODS_eval]; simp)
    (by exact h1) (by exact h2)]
  rfl

lemma gcpp_in3 (today : ℤ) (h1 : 20352 ≤ today) (h2 : today ≤ 20365) :
    get_current_and_previous_periods today =
      (⟨20352, 20365, "Sep 21 - Oct 4, 2025"⟩, ⟨20338, 20351, "Sep 7-20, 2025"⟩) := by
  unfold get_current_and_previous_periods
  rw [gp_in_range today ⟨20352, 20365, "Sep 21 - Oct 4, 2025"⟩ (by rw [PAY_PERIODS_eval]; simp)
    (by exact h1) (by exact h2)]
  rfl

lemma gcpp_in4 (today : ℤ) (h1 : 20366 ≤ today) (h2 : today ≤ 20379) :
    get_current_and_previous_periods today =
      (⟨20366, 20379, "Oct 5-18, 2025"⟩, ⟨20352, 20365, "Sep 21 - Oct 4, 2025"⟩) := by
  unfold get_current_and_previous_periods
  rw [gp_in_range today ⟨20366, 20379, "Oct 5-18, 2025"⟩ (by rw [PAY_PERIODS_eval]; simp)
    (by exact h1) (by exact h2)]
  rfl

lemma gcpp_in5 (today : ℤ) (h1 : 20380 ≤ today) (h2 : today ≤ 20393) :
    get_current_and_previous_periods today =
      (⟨20380, 20393, "Oct 19 - Nov 1, 2025"⟩, ⟨20366, 20379, "Oct 5-18, 2025"⟩) := by
  unfold get_current_and_previous_periods
  rw [gp_in_range today ⟨20380, 20393, "Oct 19 - Nov 1, 2025"⟩ (by rw [PAY_PERIODS_eval]; simp)
    (by exact h1) (by exact h2)]
  rfl

lemma gcpp_in6 (today : ℤ) (h1 : 20394 ≤ today) (h2 : today ≤ 20407) :
    get_current_and_previous_periods today =
      (⟨20394, 20407, "Nov 2-15, 2025"⟩, ⟨20380, 20393, "Oct 19 - Nov 1, 2025"⟩) := by
  unfold get_current_and_previous_periods
  rw [gp_in_range today ⟨20394, 20407, "Nov 2-15, 2025"⟩ (by rw [PAY_PERIODS_eval]; simp)
    (by exact h1) (by exact h2)]
  rfl

lemma gcpp_in7 (today : ℤ) (h1 : 20408 ≤ today) (h2 : today ≤ 20421) :
    get_current_and_previous_periods today =
      (⟨20408, 20421, "Nov 16-29, 2025"⟩, ⟨20394, 20407, "Nov 2-15, 2025"⟩) := by
  unfold get_current_and_previous_periods
  rw [gp_in_range today ⟨20408, 20421, "Nov 16-29, 2025"⟩ (by rw [PAY_PERIODS_eval]; simp)
    (by exact h1) (by exact h2)]
  rfl

lemma gcpp_in8 (today : ℤ) (h1 : 20422 ≤ today) (h2 : today ≤ 20435) :
    get_current_and_previous_periods today =
      (⟨20422, 20435, "Nov 30 - Dec 13, 2025"⟩, ⟨20408, 20421, "Nov 16-29, 2025"⟩) := by
  unfold get_current_and_previous_periods
  rw [gp_in_range today ⟨20422, 20435, "Nov 30 - Dec 13, 2025"⟩ (by rw [PAY_PERIODS_eval]; simp)
    (by exact h1) (by exact h2)]
  rfl

lemma gcpp_in9 (today : ℤ) (h1 : 20436 ≤ today) (h2 : today ≤ 20449) :
    get_current_and_previous_periods today =
      (⟨20436, 20449, "Dec 14-27, 2025"⟩, ⟨20422, 20435, "Nov 30 - Dec 13, 2025"⟩) := by
  unfold get_current_and_previous_periods
  rw [gp_in_range today ⟨20436, 20449, "Dec 14-27, 2025"⟩ (by rw [PAY_PERIODS_eval]; simp)
    (by exact h1) (by exact h2)]
  rfl

/-- C1: `calc_weekly_pay` computes `site_bonus_total = bonus_per_day *
bonus_days`; overtime is `(hours - 40) * 0.5 * ((base_weekly +
site_bonus_total) / hours)` above 40 hours and `0` otherwise (in particular
`calc_weekly_pay 40 [] 0 700 45 = (700, 0, 0)`); and the taxable gross is
`base_weekly + site_bonus_total + overtime_pay`. -/
theorem c1_weekly_pay (hours site_bonus_days base_weekly site_bonus_day : ℚ)
    (per_diem_choices : List String) :
    (40 < hours →
      (calc_weekly_pay hours per_diem_choices site_bonus_days base_weekly site_bonus_day).2.2 =
        (hours - 40) * 0.5 *
          ((base_weekly + site_bonus_day * site_bonus_days) / hours)) ∧
    (hours ≤ 40 →
      (calc_weekly_pay hours per_diem_choices site_bonus_days base_weekly site_bonus_day).2.2
        = 0) ∧
    (calc_weekly_pay hours per_diem_choices site_bonus_days base_weekly site_bonus_day).1 =
      base_weekly + site_bonus_day * site_bonus_days +
        (calc_weekly_pay hours per_diem_choices site_bonus_days base_weekly site_bonus_day).2.2 ∧
    calc_weekly_pay 40 [] 0 700 45 = (700, 0, 0) := by
  refine ⟨fun h => ?_, fun h => ?_, ?_, by simp only [calc_weekly_pay]; norm_num⟩
  · simp only [calc_weekly_pay, if_pos h]
    ring
  · simp only [calc_weekly_pay, if_neg (not_lt.mpr h)]
  · simp only [calc_weekly_pay]

theorem c1_weekly_pay_witness :
    ((40 : ℚ) < 45 ∧
      (calc_weekly_pay 45 [] 1 700 45).2.2 = (45 - 40) * 0.5 * ((700 + 45 * 1) / 45)) ∧
    ((38 : ℚ) ≤ 40 ∧ (calc_weekly_pay 38 [] 1 700 45).2.2 = 0) :=
  ⟨⟨by norm_num, (c1_weekly_pay 45 1 700 45 []).1 (by norm_num)⟩,
   ⟨by norm_num, (c1_weekly_pay 38 1 700 45 []).2.1 (by norm_num)⟩⟩

/-- C2: `calc_pay_period` returns the plain sums of the two weekly taxable
grosses and per-diem totals, and an after-tax amount equal to
`(G1 + G2) * (1 - t) + (P1 + P2)` exactly; no tax or overtime crosses the
two weeks. -/
theorem c2_pay_period (week1_hours week2_hours : ℚ)
    (week1_per_diem week2_per_diem : List String)
    (week1_site_bonus_days week2_site_bonus_days : ℚ)
    (base_weekly site_bonus_day tax_rate : ℚ) :
    calc_pay_period week1_hours week2_hours week1_per_diem week2_per_diem
        week1_site_bonus_days week2_site_bonus_days base_weekly site_bonus_day tax_rate =
      ((calc_weekly_pay week1_hours week1_per_diem week1_site_bonus_days
          base_weekly site_bonus_day).1 +
        (calc_weekly_pay week2_hours week2_per_diem week2_site_bonus_days
          base_weekly site_bonus_day).1,
       (calc_weekly_pay week1_hours week1_per_diem week1_site_bonus_days
          base_weekly site_bonus_day).2.1 +
        (calc_weekly_pay week2_hours week2_per_diem week2_site_bonus_days
          base_weekly site_bonus_day).2.1,
       ((calc_weekly_pay week1_hours week1_per_diem week1_site_bonus_days
          base_weekly site_bonus_day).1 +
        (calc_weekly_pay week2_hours week2_per_diem week2_site_bonus_days
          base_weekly site_bonus_day).1) * (1 - tax_rate) +
       ((calc_weekly_pay week1_hours week1_per_diem week1_site_bonus_days
          base_weekly site_bonus_day).2.1 +
        (calc_weekly_pay week2_hours week2_per_diem week2_site_bonus_days
          base_weekly site_bonus_day).2.1)) := by
  simp only [calc_pay_period]
  refine Prod.ext rfl (Prod.ext rfl ?_)
  show _ - _ * _ + _ = _
  ring

/-- C4: for parseable `HH:MM` strings, the hours worked are the elapsed
minutes divided by 60, reading an end at or before the start as the
following day; the two spec examples hold; and a malformed string yields 0
instead of an error. -/
theorem c4_hours_worked :
    (∀ s e h1 m1 h2 m2, parseHM s = some (h1, m1) → parseHM e = some (h2, m2) →
      calculate_hours_from_timesheet s e =
        (if (h1 * 60 + m1 : ℤ) < h2 * 60 + m2
         then (((h2 * 60 + m2) - (h1 * 60 + m1) : ℤ) : ℚ)
         else (((h2 * 60 + m2 + 1440) - (h1 * 60 + m1) : ℤ) : ℚ)) / 60) ∧
    calculate_hours_from_timesheet "08:00" "17:00" = 9 ∧
    calculate_hours_from_timesheet "22:00" "06:00" = 8 ∧
    (∀ s e, parseHM s = none ∨ parseHM e = none →
      calculate_hours_from_timesheet s e = 0) := by
  refine ⟨?_, ?_, ?_, ?_⟩
  · intro s e h1 m1 h2 m2 hs he
    simp only [calculate_hours_from_timesheet, hs, he]
    rcases lt_or_le ((h1 : ℤ) * 60 + m1) ((h2 : ℤ) * 60 + m2) with h|h
    · rw [if_neg (by omega), if_pos (by omega)]
      push_cast
      ring
    · rw [if_pos (by omega), if_neg (by omega)]
      push_cast
      ring
  · simp only [calculate_hours_from_timesheet,
      show parseHM "08:00" = some (8, 0) from rfl,
      show parseHM "17:00" = some (17, 0) from rfl]
    norm_num
  · simp only [calculate_hours_from_timesheet,
      show parseHM "22:00" = some (22, 0) from rfl,
      show parseHM "06:00" = some (6, 0) from rfl]
    norm_num
  · intro s e h
    rcases h with h|h
    · simp only [calculate_hours_from_timesheet, h]
    · cases hp : parseHM s <;> simp only [calculate_hours_from_timesheet, hp, h]

theorem c4_hours_worked_witness :
    parseHM "07:00" = some (7, 0) ∧ parseHM "08:30" = some (8, 30) ∧
    calculate_hours_from_timesheet "07:00" "08:30" = 3 / 2 ∧
    parseHM "0800" = none ∧ calculate_hours_from_timesheet "0800" "17:00" = 0 :=
  ⟨rfl, rfl,
   by rw [c4_hours_worked.1 "07:00" "08:30" 7 0 8 30 rfl rfl]; norm_num,
   rfl, c4_hours_worked.2.2.2 "0800" "17:00" (Or.inl rfl)⟩

/-- C3: for every date inside the inclusive range of a predefined pay
period, `get_pay_period_for_date` returns that exact period; for a date
before Aug 10 2025 or after Dec 27 2025 it returns a synthesized period
from the date to the date plus 13 days. -/
theorem c3_resolve_period (d : ℤ) :
    (∀ p ∈ PAY_PERIODS, p.start ≤ d → d ≤ p.stop → get_pay_period_for_date d = p) ∧
    (d < daysFromCivil 2025 8 10 ∨ daysFromCivil 2025 12 27 < d →
      (get_pay_period_for_date d).start = d ∧ (get_pay_period_for_date d).stop = d + 13) := by
  constructor
  · exact fun p hp h1 h2 => gp_in_range d p hp h1 h2
  · intro h
    rw [day_aug10, day_dec27] at h
    rw [gp_out_of_range d h]
    exact ⟨rfl, rfl⟩

theorem c3_resolve_period_witness :
    ((⟨20338, 20351, "Sep 7-20, 2025"⟩ : PayPeriod) ∈ PAY_PERIODS ∧
      get_pay_period_for_date 20340 = ⟨20338, 20351, "Sep 7-20, 2025"⟩) ∧
    ((20000 : ℤ) < daysFromCivil 2025 8 10 ∧
      (get_pay_period_for_date 20000).start = 20000 ∧
      (get_pay_period_for_date 20000).stop = 20013) :=
  ⟨⟨by rw [PAY_PERIODS_eval]; simp,
    (c3_resolve_period 20340).1 _ (by rw [PAY_PERIODS_eval]; simp) (by norm_num) (by norm_num)⟩,
   by rw [day_aug10]; norm_num,
   (c3_resolve_period 20000).2 (Or.inl (by rw [day_aug10]; norm_num))⟩

/-- C5: the current period is `get_pay_period_for_date today`; the previous
period is the latest predefined period whose end is strictly before the
current start, or, when no predefined period ends before the current start,
a synthesized period ending the day before the current start and starting
13 days before that end. -/
theorem c5_current_and_previous (today : ℤ) :
    (get_current_and_previous_periods today).1 = get_pay_period_for_date today ∧
    ((∃ p ∈ PAY_PERIODS, p.stop < (get_pay_period_for_date today).start) →
      (get_current_and_previous_periods today).2 ∈ PAY_PERIODS ∧
      (get_current_and_previous_periods today).2.stop < (get_pay_period_for_date today).start ∧
      ∀ q ∈ PAY_PERIODS, q.stop < (get_pay_period_for_date today).start →
        q.stop ≤ (get_current_and_previous_periods today).2.stop) ∧
    ((¬ ∃ p ∈ PAY_PERIODS, p.stop < (get_pay_period_for_date today).start) →
      (get_current_and_previous_periods today).2.stop =
        (get_pay_period_for_date today).start - 1 ∧
      (get_current_and_previous_periods today).2.start =
        (get_current_and_previous_periods today).2.stop - 13) := by
  have hcase : today < 20310 ∨ (20310 ≤ today ∧ today ≤ 20323) ∨
      (20324 ≤ today ∧ today ≤ 20337) ∨ (20338 ≤ today ∧ today ≤ 20351) ∨
      (20352 ≤ today ∧ today ≤ 20365) ∨ (20366 ≤ today ∧ today ≤ 20379) ∨
      (20380 ≤ today ∧ today ≤ 20393) ∨ (20394 ≤ today ∧ today ≤ 20407) ∨
      (20408 ≤ today ∧ today ≤ 20421) ∨ (20422 ≤ today ∧ today ≤ 20435) ∨
      (20436 ≤ today ∧ today ≤ 20449) ∨ 20449 < today := by omega
  rcases hcase with h|h|h|h|h|h|h|h|h|h|h|h
  · rw [gcpp_before today h, gp_out_of_range today (Or.inl (by omega))]
    refine ⟨rfl, fun hex => ?_, fun _ => ⟨rfl, rfl⟩⟩
    exfalso
    rw [PAY_PERIODS_eval] at hex
    simp only [List.mem_cons, List.not_mem_nil, or_false] at hex
    obtain ⟨p, hp, hlt⟩ := hex
    rcases hp with rfl|rfl|rfl|rfl|rfl|rfl|rfl|rfl|rfl|rfl <;>
      simp only [PayPeriod.stop, PayPeriod.start] at hlt <;> omega
  · rw [gcpp_in0 today h.1 h.2, gp_in_range today ⟨20310, 20323, "Aug 10-23, 2025"⟩
      (by rw [PAY_PERIODS_eval]; simp) h.1 h.2]
    refine ⟨rfl, fun hex => ?_, fun _ => by decide⟩
    exact absurd hex (by decide)
  · rw [gcpp_in1 today h.1 h.2, gp_in_range today ⟨20324, 20337, "Aug 24 - Sep 6, 2025"⟩
      (by rw [PAY_PERIODS_eval]; simp) h.1 h.2]
    exact ⟨rfl, fun _ => by decide, fun hno => absurd (by decide) hno⟩
  · rw [gcpp_in2 today h.1 h.2, gp_in_range today ⟨20338, 20351, "Sep 7-20, 2025"⟩
      (by rw [PAY_PERIODS_eval]; simp) h.1 h.2]
    exact ⟨rfl, fun _ => by decide, fun hno => absurd (by decide) hno⟩
  · rw [gcpp_in3 today h.1 h.2, gp_in_range today ⟨20352, 20365, "Sep 21 - Oct 4, 2025"⟩
      (by rw [PAY_PERIODS_eval]; simp) h.1 h.2]
    exact ⟨rfl, fun _ => by decide, fun hno => absurd (by decide) hno⟩
  · rw [gcpp_in4 today h.1 h.2, gp_in_range today ⟨20366, 20379, "Oct 5-18, 2025"⟩
      (by rw [PAY_PERIODS_eval]; simp) h.1 h.2]
    exact ⟨rfl, fun _ => by decide, fun hno => absurd (by decide) hno⟩
  · rw [gcpp_in5 today h.1 h.2, gp_in_range today ⟨20380, 20393, "Oct 19 - Nov 1, 2025"⟩
      (by rw [PAY_PERIODS_eval]; simp) h.1 h.2]
    exact ⟨rfl, fun _ => by decide, fun hno => absurd (by decide) hno⟩
  · rw [gcpp_in6 today h.1 h.2, gp_in_range today ⟨20394, 20407, "Nov 2-15, 2025"⟩
      (by rw [PAY_PERIODS_eval]; simp) h.1 h.2]
    exact ⟨rfl, fun _ => by decide, fun hno => absurd (by decide) hno⟩
  · rw [gcpp_in7 today h.1 h.2, gp_in_range today ⟨20408, 20421, "Nov 16-29, 2025"⟩
      (by rw [PAY_PERIODS_eval]; simp) h.1 h.2]
    exact ⟨rfl, fun _ => by decide, fun hno => absurd (by decide) hno⟩
  · rw [gcpp_in8 today h.1 h.2, gp_in_range today ⟨20422, 20435, "Nov 30 - Dec 13, 2025"⟩
      (by rw [PAY_PERIODS_eval]; simp) h.1 h.2]
    exact ⟨rfl, fun _ => by decide, fun hno => absurd (by decide) hno⟩
  · rw [gcpp_in9 today h.1 h.2, gp_in_range today ⟨20436, 20449, "Dec 14-27, 2025"⟩
      (by rw [PAY_PERIODS_eval]; simp) h.1 h.2]
    exact ⟨rfl, fun _ => by decide, fun hno => absurd (by decide) hno⟩
  · rw [gcpp_after today h, gp_out_of_range today (Or.inr (by omega))]
    dsimp only
    refine ⟨rfl, fun _ => ⟨by decide, by omega, ?_⟩, fun hno => ?_⟩
    · intro q hq hlt
      rw [PAY_PERIODS_eval] at hq
      simp only [List.mem_cons, List.not_mem_nil, or_false] at hq
      rcases hq with rfl|rfl|rfl|rfl|rfl|rfl|rfl|rfl|rfl|rfl <;>
        simp only [PayPeriod.stop] <;> omega
    · exfalso
      refine hno ⟨⟨20436, 20449, "Dec 14-27, 2025"⟩, by rw [PAY_PERIODS_eval]; simp, ?_⟩
      simp only [PayPeriod.stop]
      omega

theorem c5_current_and_previous_witness :
    (get_current_and_previous_periods 20360).1 = get_pay_period_for_date 20360 ∧
    (get_current_and_previous_periods 20360).2 ∈ PAY_PERIODS ∧
    (get_current_and_previous_periods 20360).2.stop < (get_pay_period_for_date 20360).start :=
  ⟨(c5_current_and_previous 20360).1,
   ((c5_current_and_previous 20360).2.1
      ⟨⟨20310, 20323, "Aug 10-23, 2025"⟩, by rw [PAY_PERIODS_eval]; simp, by decide⟩).1,
   ((c5_current_and_previous 20360).2.1
      ⟨⟨20310, 20323, "Aug 10-23, 2025"⟩, by rw [PAY_PERIODS_eval]; simp, by decide⟩).2.1⟩

/-- C6: `calculate_monthly_projections` taxes at `tax_rate / 100`, and
`update_pay_calculations` already passes `tax_rate / 100`, so every
projected monthly take-home of a non-empty sample is
`gross * (1 - rate/10000) + per_diem`, while the biweekly `calc_pay_period`
called with the same decimal rate taxes at `1 - rate/100`. -/
theorem c6_projection_tax_rate (sample : ProjectionSample)
    (base_weekly site_bonus_day tax_rate : ℚ)
    (hh : sample.hours ≠ 0) (hd : sample.days ≠ 0) :
    update_monthly_projections sample base_weekly site_bonus_day tax_rate =
      scenarios.map (fun sc =>
        (sc.1,
         scenarioTaxableGross sample base_weekly site_bonus_day sc.2 * (1 - tax_rate / 10000) +
           scenarioPerDiem sample sc.2)) ∧
    (∀ w1h w2h pd1 pd2 b1 b2,
      (calc_pay_period w1h w2h pd1 pd2 b1 b2 base_weekly site_bonus_day (tax_rate / 100)).2.2 =
        (calc_pay_period w1h w2h pd1 pd2 b1 b2 base_weekly site_bonus_day (tax_rate / 100)).1 *
          (1 - tax_rate / 100) +
        (calc_pay_period w1h w2h pd1 pd2 b1 b2 base_weekly site_bonus_day
          (tax_rate / 100)).2.1) := by
  constructor
  · unfold update_monthly_projections calculate_monthly_projections
    rw [if_neg (by simp [hh, hd])]
    simp only [scenarios, List.map, scenarioTaxableGross, scenarioPerDiem, List.cons.injEq,
      Prod.mk.injEq]
    refine ⟨⟨trivial, by ring⟩, ⟨trivial, by ring⟩, ⟨trivial, by ring⟩, trivial⟩
  · intro w1h w2h pd1 pd2 b1 b2
    simp only [calc_pay_period]
    ring

theorem c6_projection_tax_rate_witness :
    ((⟨40, 5, 2, ["None"]⟩ : ProjectionSample).hours ≠ 0 ∧
      (⟨40, 5, 2, ["None"]⟩ : ProjectionSample).days ≠ 0) ∧
    update_monthly_projections ⟨40, 5, 2, ["None"]⟩ 700 45 15 =
      scenarios.map (fun sc =>
        (sc.1,
         scenarioTaxableGross ⟨40, 5, 2, ["None"]⟩ 700 45 sc.2 * (1 - (15 : ℚ) / 10000) +
           scenarioPerDiem ⟨40, 5, 2, ["None"]⟩ sc.2)) :=
  ⟨⟨by norm_num, by norm_num⟩,
   (c6_projection_tax_rate ⟨40, 5, 2, ["None"]⟩ 700 45 15 (by norm_num) (by norm_num)).1⟩

lemma head_of_sorted (l : List Shift) (hs : l.Sorted shiftOrder) (a : Shift) (ha : a ∈ l)
    (hmax : ∀ b ∈ l, b ≠ a → ¬ shiftOrder b a) : l.head? = some a := by
  cases l with
  | nil => cases ha
  | cons x t =>
    by_cases hx : x = a
    · rw [hx]
      rfl
    · exfalso
      have hat : a ∈ t := by
        rcases List.mem_cons.mp ha with h|h
        · exact absurd h.symm hx
        · exact h
      exact hmax x (List.mem_cons_self x t) hx ((List.sorted_cons.mp hs).1 a hat)

/-- C7 counterexample: a newly created shift whose date is older than a
stored shift's date is not listed first; here the second (new) insert has
date 20390 while the first has date 20400, and listing puts the old shift
first. -/
theorem c7_counterexample :
    (save_shift_to_db (save_shift_to_db emptyStore 20400 "08:00" "17:00" "None" false)
        20390 "09:00" "18:00" "Dinner Only" true).rows.getLast? =
      some ⟨2, 20390, "09:00", "18:00", "Dinner Only", true, 1⟩ ∧
    (get_saved_shifts (save_shift_to_db
        (save_shift_to_db emptyStore 20400 "08:00" "17:00" "None" false)
        20390 "09:00" "18:00" "Dinner Only" true)).head? =
      some ⟨1, 20400, "08:00", "17:00", "None", false, 0⟩ ∧
    (⟨1, 20400, "08:00", "17:00", "None", false, 0⟩ : Shift) ≠
      ⟨2, 20390, "09:00", "18:00", "Dinner Only", true, 1⟩ := by
  refine ⟨rfl, ?_, by decide⟩
  rfl

/-- C7 amended: `get_saved_shifts` returns a permutation of the rows sorted
by date descending then creation time descending; creating a shift whose
date is at least as recent as every stored date lists it first. -/
theorem c7_listing (st : Store) (d : ℤ) (s e pd : String) (sb : Bool)
    (hdate : ∀ r ∈ st.rows, r.date ≤ d)
    (hclock : ∀ r ∈ st.rows, r.created_at < st.clock) :
    List.Sorted shiftOrder (get_saved_shifts (save_shift_to_db st d s e pd sb)) ∧
    (get_saved_shifts (save_shift_to_db st d s e pd sb)).Perm
      (save_shift_to_db st d s e pd sb).rows ∧
    (get_saved_shifts (save_shift_to_db st d s e pd sb)).head? =
      some ⟨st.next_id, d, s, e, pd, sb, st.clock⟩ := by
  refine ⟨List.sorted_insertionSort shiftOrder _, List.perm_insertionSort shiftOrder _, ?_⟩
  apply head_of_sorted _ (List.sorted_insertionSort shiftOrder _)
  · apply (List.perm_insertionSort shiftOrder _).mem_iff.mpr
    simp [save_shift_to_db]
  · intro b hb hne hord
    have hbmem : b ∈ st.rows ++ [⟨st.next_id, d, s, e, pd, sb, st.clock⟩] :=
      (List.perm_insertionSort shiftOrder _).subset hb
    rcases List.mem_append.mp hbmem with h|h
    · have h1 := hdate b h
      have h2 := hclock b h
      unfold shiftOrder at hord
      simp only at hord
      omega
    · exact hne (List.mem_singleton.mp h)

theorem c7_listing_witness :
    (get_saved_shifts (save_shift_to_db
        (save_shift_to_db emptyStore 20390 "09:00" "18:00" "Dinner Only" true)
        20400 "08:00" "17:00" "None" false)).head? =
      some ⟨2, 20400, "08:00", "17:00", "None", false, 1⟩ :=
  (c7_listing (save_shift_to_db emptyStore 20390 "09:00" "18:00" "Dinner Only" true)
    20400 "08:00" "17:00" "None" false
    (by decide) (by decide)).2.2

/-- C8 counterexample: a pre-existing table with columns
`id, date, created_at` lacks the required columns `start_time`, `end_time`,
`per_diem` and `site_bonus`, yet `check_database_structure` leaves it
unchanged instead of recreating it with the full schema. -/
theorem c8_counterexample :
    ("start_time" ∉ ["id", "date", "created_at"]) ∧
    check_database_structure (some ["id", "date", "created_at"]) =
      ["id", "date", "created_at"] := by
  refine ⟨by decide, rfl⟩

/-- C8 amended: the startup check drops and recreates the table only when
`date` or `created_at` is missing; a table containing both is left
unchanged, even if other required columns are missing; a missing table is
created with the full schema. -/
theorem c8_schema_check (cols : List String) :
    (("date" ∉ cols ∨ "created_at" ∉ cols) →
      check_database_structure (some cols) = full_schema_columns) ∧
    ("date" ∈ cols → "created_at" ∈ cols →
      check_database_structure (some cols) = cols) ∧
    check_database_structure none = full_schema_columns := by
  refine ⟨fun h => ?_, fun h1 h2 => ?_, rfl⟩
  · rcases em ("date" ∈ cols) with hd|hd <;> rcases em ("created_at" ∈ cols) with hc|hc <;>
      simp only [check_database_structure] <;> simp [hd, hc] at h ⊢
  · simp only [check_database_structure]
    simp [h1, h2]

theorem c8_schema_check_witness :
    (("date" : String) ∉ ["id", "created_at"] ∧
      check_database_structure (some ["id", "created_at"]) = full_schema_columns) ∧
    (("date" : String) ∈ full_schema_columns ∧ ("created_at" : String) ∈ full_schema_columns ∧
      check_database_structure (some full_schema_columns) = full_schema_columns) :=
  ⟨⟨by decide, (c8_schema_check ["id", "created_at"]).1 (Or.inl (by decide))⟩,
   ⟨by decide, by decide,
    (c8_schema_check full_schema_columns).2.1 (by decide) (by decide)⟩⟩

/-- C9: deleting a nonexistent ID returns `false` and leaves the store
unchanged; the returned flag is `true` exactly when a row with the ID
existed (and was removed); `delete_all_shifts` on an empty store reports a
count of 0. -/
theorem c9_delete (st : Store) (shift_id : ℕ) :
    ((∀ r ∈ st.rows, r.id ≠ shift_id) →
      (delete_shift_from_db st shift_id).2 = false ∧
      (delete_shift_from_db st shift_id).1 = st) ∧
    ((delete_shift_from_db st shift_id).2 = true ↔ ∃ r ∈ st.rows, r.id = shift_id) ∧
    (st.rows = [] → (delete_all_shifts st).2 = 0) := by
  refine ⟨fun h => ⟨?_, ?_⟩, ?_, fun h => ?_⟩
  · have hfil : st.rows.filter (fun r => decide (r.id = shift_id)) = [] := by
      rw [List.filter_eq_nil_iff]
      intro a ha
      simp [h a ha]
    simp [delete_shift_from_db, hfil]
  · have hkeep : st.rows.filter (fun r => decide (¬ r.id = shift_id)) = st.rows := by
      rw [List.filter_eq_self]
      intro a ha
      simp [h a ha]
    simp only [delete_shift_from_db, hkeep]
  · simp only [delete_shift_from_db, decide_eq_true_eq, List.length_pos,
      ne_eq, List.filter_eq_nil_iff]
    push_neg
    simp
  · simp only [delete_all_shifts, h, List.length_nil]

theorem c9_delete_witness :
    (∀ r ∈ (save_shift_to_db emptyStore 20400 "08:00" "17:00" "None" false).rows,
      r.id ≠ 5) ∧
    (delete_shift_from_db
      (save_shift_to_db emptyStore 20400 "08:00" "17:00" "None" false) 5).2 = false ∧
    (delete_shift_from_db
        (save_shift_to_db emptyStore 20400 "08:00" "17:00" "None" false) 5).1 =
      save_shift_to_db emptyStore 20400 "08:00" "17:00" "None" false ∧
    (delete_all_shifts emptyStore).2 = 0 :=
  ⟨by decide,
   ((c9_delete (save_shift_to_db emptyStore 20400 "08:00" "17:00" "None" false) 5).1
     (by decide)).1,
   ((c9_delete (save_shift_to_db emptyStore 20400 "08:00" "17:00" "None" false) 5).1
     (by decide)).2,
   (c9_delete emptyStore 0).2.2 rfl⟩

lemma save_fold (s e pd : String) (sb : Bool) :
    ∀ (n : ℕ) (st : Store) (c : ℤ),
    ((List.range n).map (fun (i : ℕ) => c + (i : ℤ))).foldl
        (fun acc curr => save_shift_to_db acc curr s e pd sb) st =
      { rows := st.rows ++ (List.range n).map (fun i =>
          ⟨st.next_id + i, c + (i : ℤ), s, e, pd, sb, st.clock + i⟩),
        next_id := st.next_id + n,
        clock := st.clock + n } := by
  intro n
  induction n with
  | zero =>
    intro st c
    simp only [List.range_zero, List.map_nil, List.foldl_nil, List.append_nil, Nat.add_zero]
  | succ k ih =>
    intro st c
    rw [List.range_succ]
    simp only [List.map_append, List.foldl_append, List.map_cons, List.map_nil]
    rw [ih st c]
    simp only [List.foldl_cons, List.foldl_nil, save_shift_to_db, Store.mk.injEq]
    refine ⟨?_, by omega, by omega⟩
    rw [List.append_assoc]

/-- C10: a bulk request whose end date is strictly before its start date is
rejected with a validation error and the store unchanged; otherwise exactly
one shift per day from the start date through the end date inclusive is
inserted. -/
theorem c10_bulk_add (st : Store) (bulk_start_date bulk_end_date : ℤ)
    (s e pd : String) (sb : Bool) :
    (bulk_end_date < bulk_start_date →
      bulk_add_shifts st bulk_start_date bulk_end_date s e pd sb = (st, 0, true)) ∧
    (bulk_start_date ≤ bulk_end_date →
      (bulk_add_shifts st bulk_start_date bulk_end_date s e pd sb).2.2 = false ∧
      (bulk_add_shifts st bulk_start_date bulk_end_date s e pd sb).2.1 =
        (bulk_end_date + 1 - bulk_start_date).toNat ∧
      (bulk_add_shifts st bulk_start_date bulk_end_date s e pd sb).1.rows =
        st.rows ++ (List.range (bulk_end_date + 1 - bulk_start_date).toNat).map (fun i =>
          ⟨st.next_id + i, bulk_start_date + (i : ℤ), s, e, pd, sb, st.clock + i⟩)) := by
  refine ⟨fun h => ?_, fun h => ?_⟩
  · simp only [bulk_add_shifts, if_pos h]
  · simp only [bulk_add_shifts, if_neg (not_lt.mpr h), bulk_days]
    refine ⟨trivial, by simp, ?_⟩
    rw [save_fold]

theorem c10_bulk_add_witness :
    ((105 : ℤ) > 103 ∧
      bulk_add_shifts emptyStore 105 103 "08:00" "17:00" "None" false =
        (emptyStore, 0, true)) ∧
    ((100 : ℤ) ≤ 102 ∧
      (bulk_add_shifts emptyStore 100 102 "08:00" "17:00" "None" false).1.rows =
        emptyStore.rows ++
          (List.range ((102 : ℤ) + 1 - 100).toNat).map (fun i =>
            ⟨emptyStore.next_id + i, 100 + (i : ℤ), "08:00", "17:00", "None", false,
             emptyStore.clock + i⟩)) :=
  ⟨⟨by norm_num,
    (c10_bulk_add emptyStore 105 103 "08:00" "17:00" "None" false).1 (by norm_num)⟩,
   ⟨by norm_num,
    ((c10_bulk_add emptyStore 100 102 "08:00" "17:00" "None" false).2 (by norm_num)).2.2⟩⟩
